import Mathlib

/-!
Verification of the `aws-tools` repository (Python): a Route53 DNS bulk
uploader (`dns_upload.py`) and an EC2 reboot utility (`reboot_ec2.py`).

Shallow embedding conventions:
* Python strings are `List Char` (`Str`); `str` converts a Lean string
  literal.
* Python string methods (`strip`, `upper`, `endswith`, `in`, `split`) are
  embedded as executable functions on `Str`, faithful to CPython on the
  ASCII inputs this tool handles (`upper`/`int` are modelled for ASCII;
  CPython additionally handles non-ASCII case folding and underscore
  digit separators, which never arise in the claims).
* Python exceptions are the `PyExc` inductive; fallible steps return
  `Except PyExc`.
* The boto3 calls are the external boundary: the Route53 zone listing and
  the EC2 describe/reboot responses are passed in as explicit data, and
  the EC2 call sequence is returned as an explicit trace.
-/

namespace AwsTools

/-- Python strings, embedded as lists of characters. -/
abbrev Str := List Char

/-- Conversion from a Lean string literal to the embedding. -/
def str (s : String) : Str := s.data

/-- Python exceptions that the row loop of `process_csv` can see. -/
inductive PyExc
  | valueError
  | keyError
  | attributeError
  deriving DecidableEq

/-- `str.strip()` whitespace test: Python strips the six ASCII whitespace
characters space, tab, newline, carriage return, vertical tab, form feed. -/
def pyIsSpace (c : Char) : Bool :=
  c.toNat = 32 || c.toNat = 9 || c.toNat = 10 || c.toNat = 13 ||
    c.toNat = 11 || c.toNat = 12

/-- Python `s.strip()`: remove leading and trailing whitespace. -/
def pyStrip (s : Str) : Str :=
  ((s.dropWhile pyIsSpace).reverse.dropWhile pyIsSpace).reverse

/-- Python `str.upper()` on one character (ASCII range, which is all the
tool's record types use). -/
def pyUpperChar (c : Char) : Char :=
  if 97 ≤ c.toNat ∧ c.toNat ≤ 122 then Char.ofNat (c.toNat - 32) else c

/-- Python `s.upper()`. -/
def pyUpper (s : Str) : Str := s.map pyUpperChar

/-- Python `s.endswith(suffix)`. -/
def pyEndsWith (s suffix : Str) : Bool := suffix.isSuffixOf s

/-- Python substring test `a in b`. -/
def pyIn (a : Str) : Str → Bool
  | [] => a.isEmpty
  | c :: rest => a.isPrefixOf (c :: rest) || pyIn a rest

/-- Python `s.split(sep)` for a one-character separator. -/
def pySplit (sep : Char) : Str → List Str
  | [] => [[]]
  | c :: rest =>
    match pySplit sep rest with
    | [] => [[]]
    | r :: rs => if c = sep then [] :: r :: rs else (c :: r) :: rs

/-- Digit-string value for `int()`: defined when the string is a nonempty
run of ASCII digits. -/
def digitsVal (l : Str) : Option Nat :=
  if l.isEmpty then none
  else if l.all (fun c => 48 ≤ c.toNat && c.toNat ≤ 57) then
    some (l.foldl (fun acc c => 10 * acc + (c.toNat - 48)) 0)
  else none

/-- Python `int(s)`: strips whitespace, accepts an optional sign followed
by decimal digits, raises `ValueError` otherwise. -/
def pyInt (s : Str) : Except PyExc Int :=
  let t := pyStrip s
  let core : Option Int :=
    match t with
    | '-' :: rest => (digitsVal rest).map (fun n => -(n : Int))
    | '+' :: rest => (digitsVal rest).map (fun n => (n : Int))
    | _ => (digitsVal t).map (fun n => (n : Int))
  match core with
  | some n => .ok n
  | none => .error .valueError

end AwsTools

deriving instance DecidableEq for Except

namespace AwsTools

/-! ## dns_upload.py : data model -/

/-- One entry of the `list_hosted_zones` response: its `Name` and `Id`
fields (the only fields `get_hosted_zone_id` reads). -/
structure HostedZone where
  name : Str
  id : Str
  deriving DecidableEq

/-- `hosted_zone["Id"].split("/")[-1]` -/
def extractZoneId (raw : Str) : Str := (pySplit '/' raw).getLastD []

/-- The candidate list `zone_name_search` built at the top of
`Route53Uploader.get_hosted_zone_id` (lines 49-52). -/
def zoneNameSearch (zone_name : Str) : List Str :=
  if pyEndsWith zone_name (str ".") = false then
    [zone_name ++ str ".", zone_name]
  else
    [zone_name, zone_name.dropLast]

/-- `Route53Uploader.get_hosted_zone_id` (lines 37-65), with the
`list_hosted_zones` response passed in as data.  First loop: exact
membership of the listed zone's `Name` in the candidate list.  Second
loop: `any(name in hosted_zone["Name"] for name in zone_name_search)`,
i.e. some candidate is a substring of the listed zone's name. -/
def getHostedZoneId (zones : List HostedZone) (zone_name : Str) : Option Str :=
  match zones.find? (fun hz => (zoneNameSearch zone_name).contains hz.name) with
  | some hz => some (extractZoneId hz.id)
  | none =>
    match zones.find?
        (fun hz => (zoneNameSearch zone_name).any (fun nm => pyIn nm hz.name)) with
    | some hz => some (extractZoneId hz.id)
    | none => none

/-- Modelled from the claim's words (C1): the same resolver but with the
fallback scan testing substring containment in both directions ("any
candidate name is a substring of a listed zone's name, or vice versa").
Used only to compare against the source-derived `getHostedZoneId`. -/
def getHostedZoneIdClaimed (zones : List HostedZone) (zone_name : Str) :
    Option Str :=
  match zones.find? (fun hz => (zoneNameSearch zone_name).contains hz.name) with
  | some hz => some (extractZoneId hz.id)
  | none =>
    match zones.find?
        (fun hz => (zoneNameSearch zone_name).any
          (fun nm => pyIn nm hz.name || pyIn hz.name nm)) with
    | some hz => some (extractZoneId hz.id)
    | none => none

/-- A `{"Value": ...}` resource record. -/
structure ResourceRecord where
  value : Str
  deriving DecidableEq

/-- The `ResourceRecordSet` dictionary of a change. -/
structure ResourceRecordSet where
  name : Str
  type : Str
  ttl : Int
  resourceRecords : List ResourceRecord
  deriving DecidableEq

/-- One element of the `Changes` list. -/
structure Change where
  action : Str
  resourceRecordSet : ResourceRecordSet
  deriving DecidableEq

/-- The change batch dictionary. -/
structure ChangeBatch where
  changes : List Change
  deriving DecidableEq

/-- Lines 86-94 of `create_change_batch`: qualify the record name
against the zone if it is not already a suffix of it, then append the
trailing dot if missing. -/
def fqdnOf (record_name zone_name : Str) : Str :=
  let fqdn :=
    if pyEndsWith record_name zone_name = false then
      record_name ++ str "." ++ zone_name
    else
      record_name
  if pyEndsWith fqdn (str ".") = false then fqdn ++ str "." else fqdn

/-- `Route53Uploader.create_change_batch` (lines 70-121).  The source
appends the single resource record to an initially empty list; the
embedding writes the resulting one-element list directly. -/
def create_change_batch (record_type record_name zone_name value : Str)
    (ttl : Int) : ChangeBatch :=
  let fqdn := fqdnOf record_name zone_name
  let rrValue :=
    if record_type = str "TXT" then str "\"" ++ value ++ str "\"" else value
  { changes :=
      [{ action := str "UPSERT",
         resourceRecordSet :=
           { name := fqdn, type := record_type, ttl := ttl,
             resourceRecords := [{ value := rrValue }] } }] }

/-- The single change of a batch (every batch this tool builds has
exactly one). -/
def theChange (b : ChangeBatch) : Change :=
  b.changes.headD { action := [], resourceRecordSet := ⟨[], [], 0, []⟩ }

/-- The single resource record set of a batch. -/
def theRRSet (b : ChangeBatch) : ResourceRecordSet :=
  (theChange b).resourceRecordSet

/-! ## dns_upload.py : process_csv -/

/-- One `csv.DictReader` data row.  After the header check the keys are
exactly the six expected column names; a row with fewer fields than the
header has its missing values filled with Python `None`, embedded as
`none`. -/
structure CsvRow where
  env : Option Str
  zone : Option Str
  type : Option Str
  name : Option Str
  value : Option Str
  ttl : Option Str
  deriving DecidableEq

/-- `row[key].strip()`: on a present value it strips; on Python `None`
it raises `AttributeError` (`None` has no `strip`). -/
def stripField : Option Str → Except PyExc Str
  | none => .error .attributeError
  | some s => .ok (pyStrip s)

/-- The supported record types set of `process_csv` (lines 219-229). -/
def supportedTypes : List Str :=
  [str "CNAME", str "TXT", str "A", str "AAAA", str "MX", str "NS",
   str "PTR", str "SRV", str "SOA"]

/-- Per-row terminal state inside the `try` block. -/
inductive RowResult
  | succeeded (batch : ChangeBatch)
  | skippedType
  | failedZone
  deriving DecidableEq

/-- The body of the `try` block of `process_csv` (lines 206-259), in the
dry-run path: strip the six fields in source order, parse the TTL, skip
unsupported types, resolve the zone, and build the change batch.  The
source's `record_type = row["type"].strip().upper()` (line 209) is
inlined as `pyUpper rawType` at its two use sites.  The hosted-zone
listing is passed in as data; the zone-ID cache is omitted because
`getHostedZoneId` is deterministic over a fixed listing, so caching
cannot change any per-row outcome. -/
def processRow (zones : List HostedZone) (row : CsvRow) :
    Except PyExc RowResult :=
  match stripField row.env with
  | .error e => .error e
  | .ok _env =>
  match stripField row.zone with
  | .error e => .error e
  | .ok zone =>
  match stripField row.type with
  | .error e => .error e
  | .ok rawType =>
  match stripField row.name with
  | .error e => .error e
  | .ok name =>
  match stripField row.value with
  | .error e => .error e
  | .ok value =>
  match stripField row.ttl with
  | .error e => .error e
  | .ok ttlStr =>
  match pyInt ttlStr with
  | .error e => .error e
  | .ok ttl =>
  if supportedTypes.contains (pyUpper rawType) = false then
    .ok .skippedType
  else
    match getHostedZoneId zones zone with
    | none => .ok .failedZone
    | some _zid =>
      .ok (.succeeded (create_change_batch (pyUpper rawType) name zone value ttl))

/-- The run summary counters. -/
structure Totals where
  successes : Nat
  failures : Nat
  skipped : Nat
  deriving DecidableEq

/-- The row loop of `process_csv` (lines 203-276): each row runs inside
`try`, and `except (KeyError, ValueError)` counts the row as failed and
continues; any other exception propagates and aborts the run. -/
def processRows (zones : List HostedZone) : List CsvRow → Totals → Except PyExc Totals
  | [], t => .ok t
  | row :: rest, t =>
    match processRow zones row with
    | .ok (.succeeded _) =>
        processRows zones rest { t with successes := t.successes + 1 }
    | .ok .skippedType =>
        processRows zones rest { t with skipped := t.skipped + 1 }
    | .ok .failedZone =>
        processRows zones rest { t with failures := t.failures + 1 }
    | .error .keyError =>
        processRows zones rest { t with failures := t.failures + 1 }
    | .error .valueError =>
        processRows zones rest { t with failures := t.failures + 1 }
    | .error e => .error e

/-- The expected CSV header (lines 190-197). -/
def expectedHeader : List Str :=
  [str "env", str "zone", str "type", str "name", str "value", str "ttl"]

/-- `set(reader.fieldnames) == {"env","zone","type","name","value","ttl"}`:
set equality is mutual containment of the underlying lists. -/
def headerSetEq (fns : List Str) : Bool :=
  fns.all (fun f => expectedHeader.contains f) &&
    expectedHeader.all (fun f => fns.contains f)

/-- Outcome of one run of `process_csv` on a file that exists. -/
inductive RunResult
  | exited (code : Nat)
  | finished (t : Totals)
  | crashed (e : PyExc)
  deriving DecidableEq

/-- `process_csv` (lines 167-280) after the file-existence check, with
the parsed header (`reader.fieldnames`, `none` when the file is empty)
and data rows passed in as data.  A falsy or set-unequal header prints an
error and `sys.exit(1)`s before touching any data row; otherwise the row
loop runs, and an exception it does not catch aborts the run. -/
def process_csv (fieldnames : Option (List Str)) (rows : List CsvRow)
    (zones : List HostedZone) : RunResult :=
  match fieldnames with
  | none => .exited 1
  | some fns =>
    if fns.isEmpty = true then .exited 1
    else if headerSetEq fns = false then .exited 1
    else
      match processRows zones rows ⟨0, 0, 0⟩ with
      | .ok t => .finished t
      | .error e => .crashed e

/-! ## reboot_ec2.py -/

/-- One reservation of a `describe_instances` response: the instance IDs
it contains (the only field `get_instance_by_name` reads). -/
structure Reservation where
  instances : List Str
  deriving DecidableEq

/-- The flattened instance-ID list built by the nested loops of
`get_instance_by_name` (lines 73-76). -/
def collectInstances (res : List Reservation) : List Str :=
  (res.map (fun r => r.instances)).flatten

/-- `EC2Rebooter.get_instance_by_name` (lines 52-92) on a
`describe_instances` response (already filtered by the API to the Name
tag and to states pending/running/stopping/stopped).  First component:
the returned `Optional[str]`; second component: the instance IDs printed
in the ambiguous branch (lines 88-89), empty otherwise. -/
def get_instance_by_name (res : List Reservation) : Option Str × List Str :=
  let instances := collectInstances res
  if instances.isEmpty then (none, [])
  else if 1 < instances.length then (none, instances)
  else (instances.head?, [])

/-- A step of `main` (lines 322-330) for the `--name` path: either
`sys.exit(1)` before any reboot, or `reboot_instance` invoked with the
located ID.  Python's `if not instance_id` is truthiness: `None` and the
empty string both exit. -/
inductive MainStep
  | exitOne
  | rebootCalled (iid : Str)
  deriving DecidableEq

/-- Lines 323-330 of `main` after `get_instance_by_name` returned. -/
def mainAfterLocate (res : List Reservation) : MainStep :=
  match (get_instance_by_name res).1 with
  | none => .exitOne
  | some iid => if iid.isEmpty then .exitOne else .rebootCalled iid

/-- The EC2 calls `reboot_instance` can issue, in order. -/
inductive EC2Call
  | describeInstances
  | rebootInstances (dryRun : Bool)
  deriving DecidableEq

/-- Provider answer to the `reboot_instances` call: a response with an
HTTP status code, or a raised `ClientError` with an error code. -/
inductive RebootAPIResult
  | ok (status : Nat)
  | clientError (code : Str)
  deriving DecidableEq

/-- The provider behaviour `reboot_instance` runs against: the pre-check
`describe_instances` result (`none` = no reservations/instances, i.e.
instance not found; `some st` = found with state name `st`), and the
answer to `reboot_instances` as a function of the `DryRun` flag. -/
structure EC2Env where
  describe : Option Str
  rebootResp : Bool → RebootAPIResult

/-- `EC2Rebooter.reboot_instance` (lines 98-233): returns the boolean
result together with the trace of EC2 calls issued.  The post-reboot
verification `describe_instances` (lines 184-207) appears in the trace
only on the live success path; its result only feeds prints, so it is
not modelled further. -/
def reboot_instance (env : EC2Env) (dryRun : Bool) : Bool × List EC2Call :=
  match env.describe with
  | none => (false, [.describeInstances])
  | some _state =>
    match env.rebootResp dryRun with
    | .clientError code =>
      if code = str "DryRunOperation" then
        (true, [.describeInstances, .rebootInstances dryRun])
      else
        (false, [.describeInstances, .rebootInstances dryRun])
    | .ok status =>
      if dryRun then
        (true, [.describeInstances, .rebootInstances dryRun])
      else if status = 200 then
        (true, [.describeInstances, .rebootInstances dryRun, .describeInstances])
      else
        (false, [.describeInstances, .rebootInstances dryRun])

/-- Whether `main` (lines 335-336) invokes `wait_for_instance_ok`:
only when the reboot succeeded, `--wait` was given, and not in dry-run
(`if args.wait and not args.dry_run`, reached only past the
`sys.exit(1)` on a failed reboot). -/
def mainWaitInvoked (wait dryRun rebootResult : Bool) : Bool :=
  rebootResult && wait && !dryRun

/-! ## Concrete data for witnesses and counterexamples -/

/-- The zone name with its trailing dot ensured (the first candidate the
resolver builds; the second is the same string with its last character
dropped). -/
def ensureDot (z : Str) : Str :=
  if pyEndsWith z (str ".") = false then z ++ str "." else z

/-- The hosted-zone listing used by the concrete driver examples. -/
def demoZones : List HostedZone :=
  [⟨str "example.com.", str "/hostedzone/Z3ABCDEF"⟩]

/-- A well-formed CSV data row. -/
def goodRow : CsvRow :=
  ⟨some (str "prod"), some (str "example.com"), some (str "CNAME"),
   some (str "www"), some (str "target.example.com"), some (str "300")⟩

/-- A data row whose `ttl` field holds a negative integer. -/
def negTtlRow : CsvRow :=
  ⟨some (str "prod"), some (str "example.com"), some (str "CNAME"),
   some (str "www"), some (str "target.example.com"), some (str "-300")⟩

/-- A data row whose `ttl` field fails integer parsing. -/
def badTtlRow : CsvRow :=
  ⟨some (str "prod"), some (str "example.com"), some (str "CNAME"),
   some (str "www"), some (str "target.example.com"), some (str "abc")⟩

/-- A data row with fewer fields than the header: `csv.DictReader` fills
the missing `ttl` value with Python `None`. -/
def shortRow : CsvRow :=
  ⟨some (str "prod"), some (str "example.com"), some (str "CNAME"),
   some (str "www"), some (str "target.example.com"), none⟩

/-- The change batch a row outcome carries, if any. -/
def builtBatch? : Except PyExc RowResult → Option ChangeBatch
  | .ok (.succeeded b) => some b
  | _ => none

/-! ## Helper lemmas -/

/-- Appending a character makes the string end with it. -/
theorem pyEndsWith_append_singleton (l : Str) (c : Char) :
    pyEndsWith (l ++ [c]) [c] = true := by
  simp [pyEndsWith, List.isSuffixOf, List.isPrefixOf]

/-- The dot string is the single dot character. -/
theorem str_dot_eq : str "." = ['.'] := rfl

/-- Valid code points round-trip through `Char.ofNat`. -/
theorem char_toNat_ofNat (n : Nat) (h : n.isValidChar) :
    (Char.ofNat n).toNat = n := by
  unfold Char.ofNat
  rw [dif_pos h]
  rfl

/-- Upper-casing is idempotent on characters. -/
theorem pyUpperChar_idem (c : Char) :
    pyUpperChar (pyUpperChar c) = pyUpperChar c := by
  by_cases h : 97 ≤ c.toNat ∧ c.toNat ≤ 122
  · have hv : (c.toNat - 32).isValidChar := Or.inl (by omega)
    have h1 : pyUpperChar c = Char.ofNat (c.toNat - 32) := by
      unfold pyUpperChar; rw [if_pos h]
    rw [h1]
    unfold pyUpperChar
    rw [char_toNat_ofNat _ hv]
    rw [if_neg (by omega)]
  · have h1 : pyUpperChar c = c := by unfold pyUpperChar; rw [if_neg h]
    rw [h1, h1]

/-- Upper-casing does not change whether a character is whitespace. -/
theorem pyIsSpace_pyUpperChar (c : Char) :
    pyIsSpace (pyUpperChar c) = pyIsSpace c := by
  by_cases h : 97 ≤ c.toNat ∧ c.toNat ≤ 122
  · have hv : (c.toNat - 32).isValidChar := Or.inl (by omega)
    have h1 : pyUpperChar c = Char.ofNat (c.toNat - 32) := by
      unfold pyUpperChar; rw [if_pos h]
    rw [h1]
    unfold pyIsSpace
    rw [char_toNat_ofNat _ hv]
    rw [Bool.eq_iff_iff]
    simp only [Bool.or_eq_true, decide_eq_true_eq]
    omega
  · have h1 : pyUpperChar c = c := by unfold pyUpperChar; rw [if_neg h]
    rw [h1]

/-- `dropWhile` of whitespace commutes with upper-casing. -/
theorem dropWhile_map_pyUpper (l : Str) :
    (l.map pyUpperChar).dropWhile pyIsSpace
      = (l.dropWhile pyIsSpace).map pyUpperChar := by
  induction l with
  | nil => rfl
  | cons c t ih =>
    by_cases h : pyIsSpace c = true
    · simp [List.dropWhile_cons, pyIsSpace_pyUpperChar, h, ih]
    · rw [Bool.not_eq_true] at h
      simp [List.dropWhile_cons, pyIsSpace_pyUpperChar, h]

/-- `strip` commutes with `upper`. -/
theorem pyStrip_map_pyUpper (l : Str) :
    pyStrip (pyUpper l) = pyUpper (pyStrip l) := by
  unfold pyStrip pyUpper
  rw [dropWhile_map_pyUpper, ← List.map_reverse, dropWhile_map_pyUpper,
    ← List.map_reverse]

/-- Upper-casing is idempotent on strings. -/
theorem pyUpper_idem (l : Str) : pyUpper (pyUpper l) = pyUpper l := by
  unfold pyUpper
  rw [List.map_map]
  exact List.map_congr_left (fun a _ => pyUpperChar_idem a)

/-- Upper-casing the raw field first changes nothing once the driver
strips and upper-cases it. -/
theorem pyUpper_pyStrip_pyUpper (s : Str) :
    pyUpper (pyStrip (pyUpper s)) = pyUpper (pyStrip s) := by
  rw [pyStrip_map_pyUpper, pyUpper_idem]

end AwsTools

namespace AwsTools

/-! ## Claim theorems: zone resolver -/

/-- C1 counterexample: the claim also allows a fallback match when a
listed zone's name is a substring of a candidate ("or vice versa"), but
the code's fallback (line 62) only tests candidates as substrings of the
listed name.  For query `sub.example.com` against a listing containing
only `example.com.`, the listed name is a substring of the candidate
`sub.example.com.`, so the claim's algorithm (modelled by
`getHostedZoneIdClaimed`) finds the zone, while the code reports
not-found. -/
theorem claim_c1_counterexample :
    getHostedZoneId [⟨str "example.com.", str "/hostedzone/Z1PARENT"⟩]
        (str "sub.example.com") = none ∧
    getHostedZoneIdClaimed [⟨str "example.com.", str "/hostedzone/Z1PARENT"⟩]
        (str "sub.example.com") = some (str "Z1PARENT") ∧
    pyIn (str "example.com.") (str "sub.example.com.") = true ∧
    (str "sub.example.com.") ∈ zoneNameSearch (str "sub.example.com") := by
  refine ⟨by decide, by decide, by decide, by decide⟩

/-- C1 (amended): the resolver builds both candidate forms (the name
with a trailing dot ensured, and that form with its final character
dropped), scans for an exact match of either candidate first, on exact
failure falls back to a substring scan in which a match is found exactly
when some candidate is a substring of a listed zone's name (one
direction only), and reports not-found exactly when both scans over both
forms fail. -/
theorem claim_c1 (zones : List HostedZone) (zone_name : Str) :
    zoneNameSearch zone_name
      = [ensureDot zone_name, (ensureDot zone_name).dropLast] ∧
    (getHostedZoneId zones zone_name = none ↔
      ∀ hz ∈ zones,
        (zoneNameSearch zone_name).contains hz.name = false ∧
        ∀ c ∈ zoneNameSearch zone_name, pyIn c hz.name = false) ∧
    (∀ hz, zones.find? (fun hz => (zoneNameSearch zone_name).contains hz.name)
        = some hz →
      getHostedZoneId zones zone_name = some (extractZoneId hz.id)) := by
  refine ⟨?_, ?_, ?_⟩
  · by_cases h : pyEndsWith zone_name (str ".") = false
    · rw [str_dot_eq] at h
      simp [zoneNameSearch, ensureDot, str_dot_eq, h]
    · rw [str_dot_eq] at h
      simp [zoneNameSearch, ensureDot, str_dot_eq, h]
  · unfold getHostedZoneId
    cases h1 : zones.find? (fun hz => (zoneNameSearch zone_name).contains hz.name) with
    | some hz =>
      constructor
      · intro hcontra; cases hcontra
      · intro hall
        have hmem := List.mem_of_find?_eq_some h1
        have hp := List.find?_some h1
        have := (hall hz hmem).1
        rw [this] at hp
        cases hp
    | none =>
      cases h2 : zones.find?
          (fun hz => (zoneNameSearch zone_name).any (fun nm => pyIn nm hz.name)) with
      | some hz =>
        constructor
        · intro hcontra; cases hcontra
        · intro hall
          have hmem := List.mem_of_find?_eq_some h2
          have hp := List.find?_some h2
          rw [List.any_eq_true] at hp
          obtain ⟨c, hc, hpc⟩ := hp
          have := (hall hz hmem).2 c hc
          rw [this] at hpc
          cases hpc
      | none =>
        constructor
        · intro _ hz hmem
          rw [List.find?_eq_none] at h1 h2
          refine ⟨by simpa using h1 hz hmem, ?_⟩
          intro c hc
          have := h2 hz hmem
          simp only [Bool.not_eq_true, List.any_eq_false] at this
          exact this c hc
        · intro _; rfl
  · intro hz h
    unfold getHostedZoneId
    rw [h]

/-- Witness for C1 at a concrete listing with an exact match: the
resolver returns the extracted zone ID named by the first exact scan. -/
theorem claim_c1_witness :
    getHostedZoneId [⟨str "example.com.", str "/hostedzone/Z42"⟩]
        (str "example.com") = some (str "Z42") := by
  have h := (claim_c1 [⟨str "example.com.", str "/hostedzone/Z42"⟩]
      (str "example.com")).2.2 ⟨str "example.com.", str "/hostedzone/Z42"⟩
      (by decide)
  rw [h]
  decide

/-! ## Claim theorems: change-batch builder -/

/-- C2: for every input, if the record type is `TXT` the single
resource-record value of the batch built by `create_change_batch` is the
input value wrapped in exactly one pair of double-quote characters, and
for every other record type it is the input value unmodified. -/
theorem claim_c2 (record_type record_name zone_name value : Str) (ttl : Int) :
    (record_type = str "TXT" →
      (theRRSet (create_change_batch record_type record_name zone_name value ttl)).resourceRecords
        = [{ value := str "\"" ++ value ++ str "\"" }]) ∧
    (record_type ≠ str "TXT" →
      (theRRSet (create_change_batch record_type record_name zone_name value ttl)).resourceRecords
        = [{ value := value }]) := by
  constructor
  · intro h
    simp [create_change_batch, theRRSet, theChange, h]
  · intro h
    simp [create_change_batch, theRRSet, theChange, h]

/-- Witness for C2 at concrete TXT and CNAME inputs. -/
theorem claim_c2_witness :
    (theRRSet (create_change_batch (str "TXT") (str "_verification")
        (str "example.com") (str "code") 300)).resourceRecords
      = [{ value := str "\"" ++ str "code" ++ str "\"" }] ∧
    (theRRSet (create_change_batch (str "CNAME") (str "www")
        (str "example.com") (str "target.example.com") 300)).resourceRecords
      = [{ value := str "target.example.com" }] :=
  ⟨(claim_c2 (str "TXT") (str "_verification") (str "example.com")
      (str "code") 300).1 rfl,
   (claim_c2 (str "CNAME") (str "www") (str "example.com")
      (str "target.example.com") 300).2 (by decide)⟩

/-- C3: for every input, the `Name` field of the batch built by
`create_change_batch` is the record name joined to the zone name with a
dot when the record name does not already end with the zone name, the
record name unchanged when it does (no double-append), and in either
case a trailing dot is appended only when not already present, so the
final name always ends with a dot. -/
theorem claim_c3 (record_type record_name zone_name value : Str) (ttl : Int) :
    (theRRSet (create_change_batch record_type record_name zone_name value ttl)).name
      = fqdnOf record_name zone_name ∧
    (pyEndsWith record_name zone_name = true →
      fqdnOf record_name zone_name
        = (if pyEndsWith record_name (str ".") = false then
             record_name ++ str "." else record_name)) ∧
    (pyEndsWith record_name zone_name = false →
      fqdnOf record_name zone_name
        = (if pyEndsWith (record_name ++ str "." ++ zone_name) (str ".") = false
           then record_name ++ str "." ++ zone_name ++ str "."
           else record_name ++ str "." ++ zone_name)) ∧
    pyEndsWith (fqdnOf record_name zone_name) (str ".") = true := by
  refine ⟨?_, ?_, ?_, ?_⟩
  · simp [create_change_batch, theRRSet, theChange]
  · intro h
    unfold fqdnOf
    rw [show (if pyEndsWith record_name zone_name = false then
          record_name ++ str "." ++ zone_name else record_name) = record_name
        from if_neg (by simp [h])]
  · intro h
    unfold fqdnOf
    rw [show (if pyEndsWith record_name zone_name = false then
          record_name ++ str "." ++ zone_name else record_name)
          = record_name ++ str "." ++ zone_name
        from if_pos h]
  · unfold fqdnOf
    generalize (if pyEndsWith record_name zone_name = false then
        record_name ++ str "." ++ zone_name else record_name) = j
    by_cases hdot : pyEndsWith j (str ".") = false
    · rw [if_pos hdot, str_dot_eq]
      exact pyEndsWith_append_singleton j '.'
    · rw [if_neg hdot]
      rw [Bool.not_eq_false] at hdot
      exact hdot

/-- Witness for C3: a record name already ending in the zone (with its
trailing dot) is kept unchanged, and the built name ends with a dot. -/
theorem claim_c3_witness :
    (theRRSet (create_change_batch (str "CNAME") (str "www.example.com.")
        (str "example.com.") (str "t") 300)).name = str "www.example.com." ∧
    pyEndsWith (theRRSet (create_change_batch (str "CNAME")
        (str "www.example.com.") (str "example.com.") (str "t") 300)).name
      (str ".") = true := by
  refine ⟨?_, ?_⟩
  · rw [(claim_c3 (str "CNAME") (str "www.example.com.")
        (str "example.com.") (str "t") 300).1,
      (claim_c3 (str "CNAME") (str "www.example.com.")
        (str "example.com.") (str "t") 300).2.1 (by decide)]
    decide
  · rw [(claim_c3 (str "CNAME") (str "www.example.com.")
        (str "example.com.") (str "t") 300).1]
    exact (claim_c3 (str "CNAME") (str "www.example.com.")
        (str "example.com.") (str "t") 300).2.2.2

/-- C4: every batch built by `create_change_batch` contains exactly one
change, that change's action is `UPSERT`, its record set holds exactly
one resource record, and the builder is pure and deterministic (equal
inputs give identical batches; in this functional embedding determinism
is definitional, stated here as congruence in all five arguments). -/
theorem claim_c4 (record_type record_name zone_name value : Str) (ttl : Int) :
    (create_change_batch record_type record_name zone_name value ttl).changes
      = [theChange (create_change_batch record_type record_name zone_name value ttl)] ∧
    (theChange (create_change_batch record_type record_name zone_name value ttl)).action
      = str "UPSERT" ∧
    (theRRSet (create_change_batch record_type record_name zone_name value ttl)).resourceRecords.length
      = 1 ∧
    (∀ rt rn zn v t, record_type = rt → record_name = rn → zone_name = zn →
      value = v → ttl = t →
      create_change_batch record_type record_name zone_name value ttl
        = create_change_batch rt rn zn v t) := by
  refine ⟨?_, ?_, ?_, ?_⟩
  · simp [create_change_batch, theChange]
  · simp [create_change_batch, theChange]
  · simp [create_change_batch, theRRSet, theChange]
  · intro rt rn zn v t h1 h2 h3 h4 h5
    rw [h1, h2, h3, h4, h5]

/-- Witness for C4 at a concrete input, discharging the congruence
hypotheses. -/
theorem claim_c4_witness :
    create_change_batch (str "A") (str "www") (str "example.com")
        (str "192.0.2.1") 300
      = create_change_batch (str "A") (str "www") (str "example.com")
        (str "192.0.2.1") 300 :=
  (claim_c4 (str "A") (str "www") (str "example.com")
      (str "192.0.2.1") 300).2.2.2 _ _ _ _ _ rfl rfl rfl rfl rfl

/-! ## Claim theorems: upload driver -/

/-- Permutations preserve `List.all`. -/
theorem perm_all_eq {α : Type} {l l' : List α} (h : l.Perm l')
    (p : α → Bool) : l.all p = l'.all p := by
  rw [Bool.eq_iff_iff, List.all_eq_true, List.all_eq_true]
  constructor <;> intro ha x hx
  · exact ha x (h.mem_iff.mpr hx)
  · exact ha x (h.mem_iff.mp hx)

/-- Permutations preserve `List.contains`. -/
theorem perm_contains_eq {α : Type} [BEq α] [LawfulBEq α] {l l' : List α}
    (h : l.Perm l') (a : α) : l.contains a = l'.contains a := by
  simp [List.contains, List.elem_eq_mem, h.mem_iff]

/-- C6: whenever the header, read as an unordered set, is not exactly
the six expected column names (including the no-header case), the driver
exits with code 1 without processing any data row (the result does not
depend on the rows or the zone listing); and the header check is
order-insensitive. -/
theorem claim_c6 (fieldnames : Option (List Str)) (rows rows' : List CsvRow)
    (zones zones' : List HostedZone)
    (h : ∀ l, fieldnames = some l → headerSetEq l = false) :
    process_csv fieldnames rows zones = .exited 1 ∧
    process_csv fieldnames rows zones = process_csv fieldnames rows' zones' ∧
    (∀ l l', l.Perm l' → headerSetEq l = headerSetEq l') := by
  have hexit : ∀ (rs : List CsvRow) (zs : List HostedZone),
      process_csv fieldnames rs zs = .exited 1 := by
    intro rs zs
    cases fieldnames with
    | none => rfl
    | some fns =>
      have hf := h fns rfl
      show (if fns.isEmpty = true then RunResult.exited 1
        else if headerSetEq fns = false then RunResult.exited 1
        else
          match processRows zs rs ⟨0, 0, 0⟩ with
          | .ok t => RunResult.finished t
          | .error e => RunResult.crashed e) = RunResult.exited 1
      by_cases he : fns.isEmpty = true
      · rw [if_pos he]
      · rw [if_neg he, if_pos hf]
  refine ⟨hexit rows zones, ?_, ?_⟩
  · rw [hexit rows zones, hexit rows' zones']
  · intro l l' hperm
    unfold headerSetEq
    rw [perm_all_eq hperm]
    have harg : (fun f : Str => l.contains f) = (fun f => l'.contains f) :=
      funext (fun f => perm_contains_eq hperm f)
    rw [harg]

/-- Witness for C6: a five-column header (missing `ttl`) aborts the run
with exit code 1 even though a valid data row and zone are present. -/
theorem claim_c6_witness :
    process_csv
      (some [str "env", str "zone", str "type", str "name", str "value"])
      [goodRow] demoZones = .exited 1 :=
  (claim_c6
    (some [str "env", str "zone", str "type", str "name", str "value"])
    [goodRow] [] demoZones []
    (by intro l hl; cases hl; decide)).1

/-- C5 counterexample: the claim says a row whose `ttl` field does not
denote a non-negative integer is never turned into a change batch, but
Python's `int()` (line 212) accepts negative numbers and no later check
rejects them: the row with `ttl = "-300"` is processed into a change
batch whose TTL is the negative integer -300. -/
theorem claim_c5_counterexample :
    builtBatch? (processRow demoZones negTtlRow)
      = some (create_change_batch (str "CNAME") (str "www")
          (str "example.com") (str "target.example.com") (-300)) ∧
    (theRRSet (create_change_batch (str "CNAME") (str "www")
        (str "example.com") (str "target.example.com") (-300))).ttl = -300 ∧
    (-300 : Int) < 0 := by
  refine ⟨by decide, by decide, by decide⟩

/-- C5 (amended): for every row the driver processes past parsing, the
TTL of the constructed change batch is exactly the integer that Python
`int()` parses from the row's stripped `ttl` field — which may be
negative, since the code never checks the sign; a row whose `ttl` field
fails integer parsing raises `ValueError` and is not turned into a
change batch. -/
theorem claim_c5 (zones : List HostedZone) (row : CsvRow) :
    (∀ b, processRow zones row = .ok (.succeeded b) →
      ∃ s n, row.ttl = some s ∧ pyInt (pyStrip s) = .ok n ∧
        (theRRSet b).ttl = n) ∧
    (∀ es zs tys nms vs tts,
      row = ⟨some es, some zs, some tys, some nms, some vs, some tts⟩ →
      pyInt (pyStrip tts) = .error .valueError →
      processRow zones row = .error .valueError) := by
  obtain ⟨e, z, ty, nm, v, tt⟩ := row
  constructor
  · intro b hb
    cases e with
    | none => simp [processRow, stripField] at hb
    | some es =>
    cases z with
    | none => simp [processRow, stripField] at hb
    | some zs =>
    cases ty with
    | none => simp [processRow, stripField] at hb
    | some tys =>
    cases nm with
    | none => simp [processRow, stripField] at hb
    | some nms =>
    cases v with
    | none => simp [processRow, stripField] at hb
    | some vs =>
    cases tt with
    | none => simp [processRow, stripField] at hb
    | some tts =>
    refine ⟨tts, ?_⟩
    simp only [processRow, stripField] at hb
    split at hb
    · cases hb
    next ttl heq =>
    refine ⟨ttl, rfl, heq, ?_⟩
    split at hb
    · cases hb
    split at hb
    · cases hb
    cases hb
    simp [create_change_batch, theRRSet, theChange]
  · intro es zs tys nms vs tts hrow hparse
    cases hrow
    simp only [processRow, stripField]
    rw [hparse]

/-- Witness for C5: a parse-failing `ttl` raises `ValueError` (so no
batch), and a well-formed row builds a batch carrying its parsed TTL. -/
theorem claim_c5_witness :
    processRow demoZones badTtlRow = .error .valueError ∧
    (theRRSet (create_change_batch (str "CNAME") (str "www")
        (str "example.com") (str "target.example.com") 300)).ttl = 300 := by
  constructor
  · exact (claim_c5 demoZones badTtlRow).2 (str "prod") (str "example.com")
      (str "CNAME") (str "www") (str "target.example.com") (str "abc")
      rfl (by decide)
  · have h := (claim_c5 demoZones goodRow).1
      (create_change_batch (str "CNAME") (str "www") (str "example.com")
        (str "target.example.com") 300) (by decide)
    obtain ⟨s, n, hs, hn, httl⟩ := h
    have hs' : s = str "300" := by
      have : some s = some (str "300") := by rw [← hs]; rfl
      injection this
    subst hs'
    have hn' : n = 300 := by
      rw [show pyInt (pyStrip (str "300")) = .ok 300 from by decide] at hn
      injection hn with h; exact h.symm
    subst hn'
    exact httl

/-- C7: the claim says both TTL-parse failures and missing fields are
caught per row; TTL-parse failures indeed are (second conjunct: the bad
row is counted failed and the following good row still succeeds), but a
row missing a required field is filled with `None` by `csv.DictReader`,
so `row[...].strip()` raises `AttributeError`, which the handler
`except (KeyError, ValueError)` (line 272) does not catch: the run
aborts and the remaining rows are never processed (first conjunct). -/
theorem claim_c7_code_bug :
    processRows demoZones [shortRow, goodRow] ⟨0, 0, 0⟩
      = .error .attributeError ∧
    processRows demoZones [badTtlRow, goodRow] ⟨0, 0, 0⟩
      = .ok ⟨1, 1, 0⟩ := by
  refine ⟨by decide, by decide⟩

/-- C10: record-type handling is case-insensitive: a row is processed
identically to the same row with its type field upper-cased, and
whenever a batch is built its `Type` field is the upper-cased (stripped)
type string. -/
theorem claim_c10 (zones : List HostedZone)
    (e z ty nm v tt : Option Str) (s : Str) (h : ty = some s) :
    processRow zones ⟨e, z, ty, nm, v, tt⟩
      = processRow zones ⟨e, z, some (pyUpper s), nm, v, tt⟩ ∧
    (∀ b, processRow zones ⟨e, z, ty, nm, v, tt⟩ = .ok (.succeeded b) →
      (theRRSet b).type = pyUpper (pyStrip s)) := by
  subst h
  constructor
  · simp only [processRow, stripField]
    rw [pyUpper_pyStrip_pyUpper]
  · intro b hb
    cases e with
    | none => simp [processRow, stripField] at hb
    | some es =>
    cases z with
    | none => simp [processRow, stripField] at hb
    | some zs =>
    cases nm with
    | none => simp [processRow, stripField] at hb
    | some nms =>
    cases v with
    | none => simp [processRow, stripField] at hb
    | some vs =>
    cases tt with
    | none => simp [processRow, stripField] at hb
    | some tts =>
    simp only [processRow, stripField] at hb
    split at hb
    · cases hb
    split at hb
    · cases hb
    split at hb
    · cases hb
    cases hb
    simp [create_change_batch, theRRSet, theChange]

/-- Witness for C10: the lower-case type `cname` is processed exactly
like `CNAME`, and the built batch's type field is `CNAME`. -/
theorem claim_c10_witness :
    processRow demoZones
        ⟨some (str "prod"), some (str "example.com"), some (str "cname"),
         some (str "www"), some (str "target.example.com"), some (str "300")⟩
      = processRow demoZones
        ⟨some (str "prod"), some (str "example.com"),
         some (pyUpper (str "cname")),
         some (str "www"), some (str "target.example.com"), some (str "300")⟩ ∧
    (theRRSet (create_change_batch (str "CNAME") (str "www")
        (str "example.com") (str "target.example.com") 300)).type
      = pyUpper (pyStrip (str "cname")) := by
  constructor
  · exact (claim_c10 demoZones (some (str "prod")) (some (str "example.com"))
      (some (str "cname")) (some (str "www")) (some (str "target.example.com"))
      (some (str "300")) (str "cname") rfl).1
  · exact (claim_c10 demoZones (some (str "prod")) (some (str "example.com"))
      (some (str "cname")) (some (str "www")) (some (str "target.example.com"))
      (some (str "300")) (str "cname") rfl).2
      (create_change_batch (str "CNAME") (str "www") (str "example.com")
        (str "target.example.com") 300)
      (by decide)

/-! ## Claim theorems: instance locator and reboot driver -/

/-- C8: the instance locator returns no identifier when zero instances
match and when more than one matches (printing every matching identifier
in the ambiguous case), and whenever it returns no identifier the driver
takes the exit-1 step before any reboot call. -/
theorem claim_c8 (res : List Reservation) :
    (collectInstances res = [] → get_instance_by_name res = (none, [])) ∧
    (1 < (collectInstances res).length →
      get_instance_by_name res = (none, collectInstances res)) ∧
    ((get_instance_by_name res).1 = none → mainAfterLocate res = .exitOne) := by
  refine ⟨?_, ?_, ?_⟩
  · intro h
    simp [get_instance_by_name, h]
  · intro h
    have hne : (collectInstances res).isEmpty = false := by
      cases hc : collectInstances res with
      | nil => rw [hc] at h; simp at h
      | cons a l => simp
    simp [get_instance_by_name, hne, h]
  · intro h
    unfold mainAfterLocate
    rw [h]

/-- Witness for C8: a tag matching two instances yields no identifier,
prints both IDs, and the driver exits before rebooting. -/
theorem claim_c8_witness :
    get_instance_by_name [⟨[str "i-0aaa"]⟩, ⟨[str "i-0bbb"]⟩]
      = (none, [str "i-0aaa", str "i-0bbb"]) ∧
    mainAfterLocate [⟨[str "i-0aaa"]⟩, ⟨[str "i-0bbb"]⟩] = .exitOne := by
  refine ⟨?_, ?_⟩
  · have h := (claim_c8 [⟨[str "i-0aaa"]⟩, ⟨[str "i-0bbb"]⟩]).2.1 (by decide)
    rw [h]
    decide
  · exact (claim_c8 [⟨[str "i-0aaa"]⟩, ⟨[str "i-0bbb"]⟩]).2.2 (by decide)

/-- C9 counterexample: the claim says that in dry-run mode no mutating
provider endpoint is called, but the code (line 136) does call
`reboot_instances` (with `DryRun=True`, so the provider rejects it with
`DryRunOperation` and performs no reboot): the call trace of a dry run
against a provider that answers `DryRunOperation` contains a
`RebootInstances` invocation. -/
theorem claim_c9_counterexample :
    EC2Call.rebootInstances true ∈
      (reboot_instance
        ⟨some (str "running"),
         fun _ => .clientError (str "DryRunOperation")⟩ true).2 ∧
    (reboot_instance
        ⟨some (str "running"),
         fun _ => .clientError (str "DryRunOperation")⟩ true).1 = true := by
  refine ⟨?_, ?_⟩ <;> decide

/-- C9 (amended): in dry-run mode the driver invokes the reboot endpoint
once but always with the `DryRun` flag set (so the provider performs no
actual reboot), reports a simulated would-reboot success whether the
provider accepts the call or raises `DryRunOperation`, performs no
post-reboot verification call, and never invokes the extended wait. -/
theorem claim_c9 (env : EC2Env) (st : Str)
    (hdesc : env.describe = some st)
    (hresp : (∃ s, env.rebootResp true = .ok s) ∨
      env.rebootResp true = .clientError (str "DryRunOperation")) :
    reboot_instance env true
      = (true, [.describeInstances, .rebootInstances true]) ∧
    (∀ c ∈ (reboot_instance env true).2,
      c = .describeInstances ∨ c = .rebootInstances true) ∧
    (∀ w r, mainWaitInvoked w true r = false) := by
  have hmain : reboot_instance env true
      = (true, [.describeInstances, .rebootInstances true]) := by
    unfold reboot_instance
    rw [hdesc]
    rcases hresp with ⟨s, hok⟩ | herr
    · rw [hok]
      rfl
    · rw [herr]
      rfl
  refine ⟨hmain, ?_, ?_⟩
  · intro c hc
    rw [hmain] at hc
    simp only [List.mem_cons, List.not_mem_nil, or_false] at hc
    rcases hc with rfl | rfl
    · exact Or.inl rfl
    · exact Or.inr rfl
  · intro w r
    simp [mainWaitInvoked]

/-- Witness for C9 at a concrete provider behaviour. -/
theorem claim_c9_witness :
    reboot_instance
        ⟨some (str "running"),
         fun _ => .clientError (str "DryRunOperation")⟩ true
      = (true, [.describeInstances, .rebootInstances true]) :=
  (claim_c9
    ⟨some (str "running"), fun _ => .clientError (str "DryRunOperation")⟩
    (str "running") rfl (Or.inr rfl)).1

end AwsTools

